import Mathlib

/-!
Verification development for the two-agent character conversation system.

The definitions below are a shallow embedding of the Python sources:
- `src/examples/intermediate/two_agent_natural_ending.py`
  (class `CharacterDrivenConversation`: the orchestrator loop,
  the structured-reply parsing and the consensus parsing),
- `src/agents/base_agent.py` (`AgentMemory.add_short_term_memory`,
  `BaseAgent.think`, `BaseAgent.get_state`, `BaseAgent.load_state`),
- `src/agents/character_memory.py` (`CharacterMemory._update_relationship`),
- `src/agents/enhanced_character_agent.py`
  (`EnhancedCharacterAgent._update_emotional_state`,
   `EnhancedCharacterAgent._update_memory`).

Python strings are embedded as `String`/`List Char` (ASCII discipline: the
keyword and marker sets of the source are ASCII, and `str.lower` /
`re.IGNORECASE` are modelled by `Char.toLower`).  Python ints are `Nat`/`Int`
(arbitrary precision, no overflow).  Python floats only ever hold multiples
of 0.5 in the familiarity logic verified here, where binary floating point is
exact, so they are embedded as `ℚ`.
-/

/-! ## Text utilities (embedding of the `re` idioms used by the source) -/

/-- Python `\s` on the ASCII range (space, tab, newline, CR, VT, FF). -/
def isSpaceChar (c : Char) : Bool :=
  c = ' ' || c = '\t' || c = '\n' || c = '\r' || c = '\x0b' || c = '\x0c'

/-- Numeric value of a digit string matched by `\d+`, as consumed by `int()`. -/
def digitsToNat (ds : List Char) : Nat :=
  ds.foldl (fun acc c => acc * 10 + (c.toNat - '0'.toNat)) 0

/-- Case-insensitive "starts with", modelling `re.IGNORECASE` literal matching. -/
def ciStartsWith : List Char → List Char → Bool
  | [], _ => true
  | _ :: _, [] => false
  | a :: as, b :: bs => (a.toLower == b.toLower) && ciStartsWith as bs

/-- Python `needle in haystack` (substring containment). -/
def containsSeq (needle : List Char) : List Char → Bool
  | [] => needle.isEmpty
  | c :: rest => needle.isPrefixOf (c :: rest) || containsSeq needle rest

/-- `any(word in text for word in words)` over a lowercased text. -/
def containsAnyWord (words : List String) (text : List Char) : Bool :=
  words.any (fun w => containsSeq w.data text)

/-- Lowercased character sequence of a Python string (`str.lower()`). -/
def lowerChars (s : String) : List Char :=
  s.data.map Char.toLower

/-- Remainder of the text just after the leftmost occurrence of `marker`
(case-sensitive), as `re.search` positions the group after a literal marker;
`none` when the marker does not occur. -/
def findAfterMarker (marker : List Char) : List Char → Option (List Char)
  | [] => none
  | c :: rest =>
    if marker.isPrefixOf (c :: rest) then some ((c :: rest).drop marker.length)
    else findAfterMarker marker rest

/-- The characters before the leftmost occurrence of `stop` (all of them when
`stop` does not occur): the value of a lazy group `(.*?)(?=stop|$)` under
`re.DOTALL`.  (`$` can also match just before a trailing newline; every use in
the source immediately `.strip()`s the group, which erases that difference.) -/
def upToMarker (stop : List Char) : List Char → List Char
  | [] => []
  | c :: rest => if stop.isPrefixOf (c :: rest) then [] else c :: upToMarker stop rest

/-- Python `str.strip()` restricted to the group values handled here. -/
def stripChars (s : List Char) : List Char :=
  ((s.dropWhile isSpaceChar).reverse.dropWhile isSpaceChar).reverse

/-! ## ResponseParser
(`CharacterDrivenConversation._parse_intelligent_response`, lines 183-228, and
the consensus parse in `_get_ending_consensus`, lines 260-279). -/

/-- `re.search(r'Want to end:\s*(YES|NO)', text, re.IGNORECASE)` followed by
`group(1).upper() == "YES"`: `some true` for a YES match, `some false` for a
NO match, `none` when the pattern does not occur.  The scan tries each start
position left to right; `\s*` is greedy and whitespace is disjoint from
`YES`/`NO`, so no backtracking is lost. -/
def searchWantToEnd : List Char → Option Bool
  | [] => none
  | c :: rest =>
    if ciStartsWith "want to end:".data (c :: rest) then
      let after := ((c :: rest).drop 12).dropWhile isSpaceChar
      if ciStartsWith "yes".data after then some true
      else if ciStartsWith "no".data after then some false
      else searchWantToEnd rest
    else searchWantToEnd rest

/-- `re.search(r'Agree to end:\s*(YES|NO)', text, re.IGNORECASE)` followed by
`group(1).upper() == "YES"`, same shape as `searchWantToEnd`. -/
def searchAgreeToEnd : List Char → Option Bool
  | [] => none
  | c :: rest =>
    if ciStartsWith "agree to end:".data (c :: rest) then
      let after := ((c :: rest).drop 13).dropWhile isSpaceChar
      if ciStartsWith "yes".data after then some true
      else if ciStartsWith "no".data after then some false
      else searchAgreeToEnd rest
    else searchAgreeToEnd rest

/-- `re.search(r'Confidence:\s*(\d+)', text)` followed by `int(group(1))`:
the digit run after the leftmost `Confidence:` marker that is actually
followed (modulo whitespace) by at least one digit. -/
def searchConfidence : List Char → Option Nat
  | [] => none
  | c :: rest =>
    if "Confidence:".data.isPrefixOf (c :: rest) then
      let ds := (((c :: rest).drop 11).dropWhile isSpaceChar).takeWhile Char.isDigit
      if ds.isEmpty then searchConfidence rest else some (digitsToNat ds)
    else searchConfidence rest

/-- The dictionary returned by `_parse_intelligent_response`. -/
structure ParsedResponse where
  response : String
  wants_to_end : Bool
  reasoning : String
  confidence : Nat
  agent_name : String
deriving DecidableEq

/-- `CharacterDrivenConversation._parse_intelligent_response` (lines 183-217):
extract the `RESPONSE:` section, the `Want to end:` flag (default `false`),
the `Reasoning:` section (default `"No clear reasoning provided"`) and the
clamped `Confidence:` value (default `5`). -/
def parseIntelligentResponse (fullResponse : String) (agentName : String) : ParsedResponse :=
  let chars := fullResponse.data
  let response :=
    match findAfterMarker "RESPONSE:".data chars with
    | some after =>
        String.mk (stripChars (upToMarker "ENDING_ASSESSMENT:".data (after.dropWhile isSpaceChar)))
    | none => fullResponse
  let wants_to_end :=
    match searchWantToEnd chars with
    | some b => b
    | none => false
  let reasoning :=
    match findAfterMarker "Reasoning:".data chars with
    | some after =>
        String.mk (stripChars (upToMarker "Confidence:".data (after.dropWhile isSpaceChar)))
    | none => "No clear reasoning provided"
  let confidence :=
    match searchConfidence chars with
    | some n => max 1 (min 10 n)
    | none => 5
  ⟨response, wants_to_end, reasoning, confidence, agentName⟩

/-- The fallback dictionary built in the `except` branch of
`_parse_intelligent_response` (lines 219-228). -/
def parseFallbackResponse (fullResponse : String) (agentName : String) : ParsedResponse :=
  ⟨fullResponse, false, "Failed to parse ending assessment", 5, agentName⟩

/-- The consensus dictionary parsed by `_get_ending_consensus` (lines 260-279):
`agrees_to_end` defaults to `false` on a missing marker, `reasoning` defaults
to `"No reasoning provided"`. -/
structure ConsensusDecision where
  agrees_to_end : Bool
  reasoning : String
deriving DecidableEq

/-- Parse of the consensus reply in `_get_ending_consensus`:
`re.search(r'Agree to end:\s*(YES|NO)', response, re.IGNORECASE)` and
`re.search(r'Reasoning:\s*(.*?)$', response, re.DOTALL)` with `.strip()`. -/
def parseConsensus (response : String) : ConsensusDecision :=
  let agrees :=
    match searchAgreeToEnd response.data with
    | some b => b
    | none => false
  let reasoning :=
    match findAfterMarker "Reasoning:".data response.data with
    | some after => String.mk (stripChars (after.dropWhile isSpaceChar))
    | none => "No reasoning provided"
  ⟨agrees, reasoning⟩

/-! ## ConversationOrchestrator
(`CharacterDrivenConversation.start_natural_conversation`, lines 24-108). -/

/-- The ending-relevant part of a parsed turn reply, as read from the
`response_data` dictionary by the loop (lines 49-52). -/
structure EndingDecision where
  wants_to_end : Bool
  reasoning : String
  confidence : Nat
deriving DecidableEq

/-- The `EndingDecision` carried by a `ParsedResponse`. -/
def parsedDecision (p : ParsedResponse) : EndingDecision :=
  ⟨p.wants_to_end, p.reasoning, p.confidence⟩

/-- Environment of one loop iteration: the decision parsed from the listener's
reply, and the consensus decision the original speaker would give if
`_get_ending_consensus` is invoked this turn. -/
structure TurnInput where
  decision : EndingDecision
  consensus : ConsensusDecision
deriving DecidableEq

/-- One record of the conversation history relevant to the ending protocol:
the 1-based turn number, which agent was `current_speaker` when the turn began
(`true` = `agent1`, who speaks first), the listener's parsed decision, and the
consensus decision obtained from the current speaker when and only when
`_get_ending_consensus(current_speaker, ...)` was called during the turn. -/
structure TurnEntry where
  turn : Nat
  speaker_is_agent1 : Bool
  decision : EndingDecision
  consensus_asked_of_speaker : Option ConsensusDecision
deriving DecidableEq

/-- Observable outcome of `start_natural_conversation`: the final value of
`self.turn_count`, the reported `ending_reason`, and the per-turn log. -/
structure RunResult where
  turn_count : Nat
  ending_reason : String
  log : List TurnEntry
deriving DecidableEq

/-- `self.max_turns = 20  # Safety limit only` (line 22). -/
def defaultMaxTurns : Nat := 20

/-- The `while self.turn_count < self.max_turns` loop of
`start_natural_conversation` (lines 38-102), recursing on the number of
remaining iterations `maxTurns - turn_count`.  `ending_reason` starts as
`"max_turns_reached"` (line 36) and is only reassigned at the two `break`
sites; each non-breaking iteration swaps speaker and listener (line 95). -/
def conversationLoop (inputs : Nat → TurnInput) (turnCount : Nat)
    (speakerIsAgent1 : Bool) : Nat → RunResult
  | 0 => ⟨turnCount, "max_turns_reached", []⟩
  | remaining + 1 =>
    let tc := turnCount + 1
    let inp := inputs tc
    let d := inp.decision
    if d.wants_to_end then
      if 7 ≤ d.confidence then
        ⟨tc, "character_decision: " ++ d.reasoning, [⟨tc, speakerIsAgent1, d, none⟩]⟩
      else if 4 ≤ d.confidence then
        let c := inp.consensus
        if c.agrees_to_end then
          ⟨tc, "mutual_agreement: " ++ c.reasoning, [⟨tc, speakerIsAgent1, d, some c⟩]⟩
        else
          let rest := conversationLoop inputs tc (!speakerIsAgent1) remaining
          ⟨rest.turn_count, rest.ending_reason, ⟨tc, speakerIsAgent1, d, some c⟩ :: rest.log⟩
      else
        let rest := conversationLoop inputs tc (!speakerIsAgent1) remaining
        ⟨rest.turn_count, rest.ending_reason, ⟨tc, speakerIsAgent1, d, none⟩ :: rest.log⟩
    else
      let rest := conversationLoop inputs tc (!speakerIsAgent1) remaining
      ⟨rest.turn_count, rest.ending_reason, ⟨tc, speakerIsAgent1, d, none⟩ :: rest.log⟩

/-- A whole conversation run: `turn_count` starts at 0, `agent1` speaks first
(line 33), and the loop may iterate at most `maxTurns` times. -/
def runConversation (inputs : Nat → TurnInput) (maxTurns : Nat) : RunResult :=
  conversationLoop inputs 0 true maxTurns

/-! ## MemoryStore (`AgentMemory.add_short_term_memory`, base_agent.py 22-29). -/

/-- `add_short_term_memory`: append the event merged with a timestamp, then
`if len(self.short_term) > 20: self.short_term = self.short_term[-20:]`.
A stored entry is the pair (event payload, timestamp). -/
def addShortTermMemory {E : Type} (shortTerm : List (E × Nat)) (memory : E)
    (now : Nat) : List (E × Nat) :=
  let st := shortTerm ++ [(memory, now)]
  if 20 < st.length then st.drop (st.length - 20) else st

/-- The short-term memory produced by a sequence of `remember` calls
(each `BaseAgent.remember` delegates to `add_short_term_memory`), starting
from the empty store of a fresh `AgentMemory`. -/
def rememberAll {E : Type} (events : List (E × Nat)) : List (E × Nat) :=
  events.foldl (fun st en => addShortTermMemory st en.1 en.2) []

/-! ## RelationshipTracker (`CharacterMemory._update_relationship`, 30-51). -/

/-- One conversation exchange as consumed by `_update_relationship`: the
incoming message and the (abstracted) ISO timestamp of the interaction. -/
structure Interaction where
  message : String
  timestamp : Nat
deriving DecidableEq

/-- The relationship record kept in `CharacterMemory.relationships`
(`relationship_notes` is created empty and never touched by the update,
so it is omitted).  Scores are ℚ: every value familiarity takes is a
multiple of 0.5, on which Python float arithmetic is exact; the 0.2
collaboration step is kept symbolically exact in the same way. -/
structure Relationship where
  trust_level : ℚ
  familiarity : ℚ
  collaboration_score : ℚ
  conversation_count : Nat
  first_meeting : Nat
  last_interaction : Nat
deriving DecidableEq

/-- `CharacterMemory._update_relationship` (lines 30-51): lazily create the
default record, bump `conversation_count`, saturate `familiarity` at 10 in
steps of 0.5, refresh `last_interaction`, and bump `collaboration_score` when
the message exceeds 100 characters. -/
def updateRelationship (rel : Option Relationship) (inter : Interaction) : Relationship :=
  let r : Relationship :=
    match rel with
    | none => ⟨5, 0, 5, 0, inter.timestamp, inter.timestamp⟩
    | some r => r
  let r := { r with
    conversation_count := r.conversation_count + 1,
    familiarity := min 10 (r.familiarity + 1/2),
    last_interaction := inter.timestamp }
  if 100 < inter.message.length then
    { r with collaboration_score := min 10 (r.collaboration_score + 1/5) }
  else r

/-- The relationship record after a sequence of recorded interactions with a
fixed other agent, starting before the first meeting (`none`: no record yet,
as `remember_interaction` creates it lazily). -/
def relAfter (inters : List Interaction) : Option Relationship :=
  inters.foldl (fun acc i => some (updateRelationship acc i)) none

/-- Familiarity read off an optional record (0 before the record exists,
matching the freshly created record's `"familiarity": 0.0`). -/
def famOf (rel : Option Relationship) : ℚ :=
  match rel with
  | none => 0
  | some r => r.familiarity

/-! ## Sentiment update
(`EnhancedCharacterAgent._update_memory`, enhanced_character_agent.py 126-167). -/

inductive Sentiment where
  | positive
  | neutral
  | concerned
deriving DecidableEq

/-- Keyword set of `_update_memory`'s gratitude check (line 156). -/
def sentimentGratitudeWords : List String := ["thank", "appreciate", "wonderful", "excellent"]

/-- Keyword set of `_update_memory`'s distress check (line 158). -/
def sentimentDistressWords : List String := ["problem", "issue", "concern", "upset"]

/-- The sentiment value computed by `_update_memory` (lines 154-159):
`sentiment = "neutral"`, overwritten by the gratitude check, else by the
distress check, over `message.lower()`. -/
def computeSentiment (message : String) : Sentiment :=
  if containsAnyWord sentimentGratitudeWords (lowerChars message) then .positive
  else if containsAnyWord sentimentDistressWords (lowerChars message) then .concerned
  else .neutral

inductive Mood where
  | neutral
  | excited
  | concerned
  | pleased
deriving DecidableEq

/-- The per-other-agent record kept in `self.enhanced_relationships`
(lines 144-152). -/
structure EnhancedRelationship where
  interaction_count : Nat
  sentiment : Sentiment
  emotional_impact : List Mood
deriving DecidableEq

/-- The relationship part of `EnhancedCharacterAgent._update_memory`
(lines 142-161): lazily create the record with `sentiment: "neutral"`, bump
`interaction_count`, append the current mood to `emotional_impact`, and store
the freshly computed sentiment of this message. -/
def updateEnhancedRelationship (rel : Option EnhancedRelationship) (message : String)
    (mood : Mood) : EnhancedRelationship :=
  let r : EnhancedRelationship :=
    match rel with
    | none => ⟨0, .neutral, []⟩
    | some r => r
  { r with
    interaction_count := r.interaction_count + 1,
    emotional_impact := r.emotional_impact ++ [mood],
    sentiment := computeSentiment message }

/-! ## EmotionalStateMachine
(`EnhancedCharacterAgent._update_emotional_state`, lines 92-107). -/

/-- `self.emotional_state = {"mood": "neutral", "energy": 100}`. -/
structure EmotionalState where
  mood : Mood
  energy : Int
deriving DecidableEq

/-- Keyword set of the excitement branch (line 96). -/
def excitementWords : List String := ["wonderful", "excellent", "brilliant", "fascinating"]

/-- Keyword set of the emotional distress branch (line 99). -/
def emotionDistressWords : List String := ["difficult", "problem", "concern", "worry"]

/-- Keyword set of the emotional gratitude branch (line 102). -/
def emotionGratitudeWords : List String := ["thank", "appreciate", "grateful"]

/-- `EnhancedCharacterAgent._update_emotional_state` (lines 92-107):
the keyword-driven mood/energy rule over `message.lower()`, followed by the
conversation-length energy decay when the context carries
`"conversation_turn"` (modelled as `some turn`). -/
def updateEmotionalState (st : EmotionalState) (message : String)
    (conversationTurn : Option Int) : EmotionalState :=
  let ml := lowerChars message
  let st1 :=
    if containsAnyWord excitementWords ml then
      { mood := Mood.excited, energy := min 100 (st.energy + 10) }
    else if containsAnyWord emotionDistressWords ml then
      { mood := Mood.concerned, energy := max 0 (st.energy - 5) }
    else if containsAnyWord emotionGratitudeWords ml then
      { mood := Mood.pleased, energy := st.energy }
    else st
  match conversationTurn with
  | some turn => { st1 with energy := max 50 (100 - turn * 5) }
  | none => st1

/-- The keyword rule taken on its own (first half of
`_update_emotional_state`, lines 94-103), as the specification words it. -/
def keywordMoodRule (st : EmotionalState) (message : String) : EmotionalState :=
  let ml := lowerChars message
  if containsAnyWord excitementWords ml then
    { mood := Mood.excited, energy := min 100 (st.energy + 10) }
  else if containsAnyWord emotionDistressWords ml then
    { mood := Mood.concerned, energy := max 0 (st.energy - 5) }
  else if containsAnyWord emotionGratitudeWords ml then
    { mood := Mood.pleased, energy := st.energy }
  else st

/-- The length-based decay taken on its own (second half of
`_update_emotional_state`, lines 105-107), as the specification words it. -/
def lengthDecayRule (st : EmotionalState) (conversationTurn : Option Int) : EmotionalState :=
  match conversationTurn with
  | some turn => { st with energy := max 50 (100 - turn * 5) }
  | none => st

/-! ## Generation failure fallback (`BaseAgent.think`, base_agent.py 88-124). -/

/-- The `except` branch of `BaseAgent.think` (line 124): the apologetic
message with the exception text interpolated at the end. -/
def thinkFallback (e : String) : String :=
  "I apologize, but I\x27m having difficulty processing that request: " ++ e

/-- `BaseAgent.think` seen from its caller: either the generation
collaborator's reply, or — when the call raises — the fallback utterance,
with no exception propagated. -/
def thinkResult (generation : Except String String) : String :=
  match generation with
  | .ok reply => reply
  | .error e => thinkFallback e

/-! ## Agent state export/import
(`BaseAgent.get_state` / `BaseAgent.load_state`, base_agent.py 149-165). -/

/-- `AgentMemory` as dumped/restored by pydantic: ordered key/value maps are
association lists (Python dicts preserve insertion order); entry, relationship
and long-term value types are abstract. -/
structure AgentMemoryModel (E R L : Type) where
  short_term : List E
  long_term : List (String × L)
  relationships : List (String × R)

/-- The in-memory fields of a `BaseAgent` touched by `get_state`/`load_state`. -/
structure BaseAgentState (E R L C P : Type) where
  agent_id : String
  name : String
  personality : List (String × P)
  memory : AgentMemoryModel E R L
  chat_history : List C

/-- The dictionary produced by `get_state` (lines 149-157); `model_dump` on
plain data round-trips values, so the blob carries the structured values. -/
structure AgentStateBlob (E R L C P : Type) where
  agent_id : String
  name : String
  personality : List (String × P)
  memory : AgentMemoryModel E R L
  chat_history : List C

/-- `BaseAgent.get_state` (lines 149-157). -/
def getState {E R L C P : Type} (a : BaseAgentState E R L C P) : AgentStateBlob E R L C P :=
  ⟨a.agent_id, a.name, a.personality, a.memory, a.chat_history⟩

/-- `BaseAgent.load_state` (lines 159-165): rebuild `AgentMemory` from the
blob's `memory` entry; when the blob carries a `chat_history` key (every
`get_state` blob does) the chat history is reset to a fresh empty
`ChatHistory()`, i.e. the transcript is not restored. -/
def loadState {E R L C P : Type} (a : BaseAgentState E R L C P)
    (blob : AgentStateBlob E R L C P) : BaseAgentState E R L C P :=
  { a with memory := blob.memory, chat_history := [] }

/-! ## Theorems -/

/-- Helper: starting from an empty store, a sequence of `remember` calls
leaves exactly the suffix of the last 20 stamped events. -/
theorem rememberAll_eq_drop {E : Type} (events : List (E × Nat)) :
    rememberAll events = events.drop (events.length - 20) := by
  induction events using List.reverseRecOn with
  | nil => rfl
  | append_singleton is i ih =>
    have hstep : rememberAll (is ++ [i]) = addShortTermMemory (rememberAll is) i.1 i.2 := by
      simp [rememberAll]
    rw [hstep, ih]
    simp only [addShortTermMemory, List.length_append, List.length_drop, List.length_singleton]
    split_ifs with h
    · have h20 : 20 ≤ is.length := by omega
      have e1 : is.length - (is.length - 20) + 1 - 20 = 1 := by omega
      rw [e1]
      have h1 : (1 : Nat) ≤ (List.drop (is.length - 20) is).length := by
        rw [List.length_drop]; omega
      rw [List.drop_append_of_le_length h1, List.drop_drop,
        List.drop_append_of_le_length (by omega : is.length + 1 - 20 ≤ is.length),
        show is.length - 20 + 1 = is.length + 1 - 20 by omega]
    · have hlt : is.length < 20 := by omega
      rw [show is.length - 20 = 0 by omega, show is.length + 1 - 20 = 0 by omega,
        List.drop_zero, List.drop_zero]

/-- Claim C5: after every sequence of `remember` calls the short-term memory
holds at most 20 events, and for sequences of at least 21 calls it holds
exactly the 20 most recently added events in insertion order (strict FIFO
eviction of the oldest). -/
theorem short_term_memory_fifo_cap {E : Type} (events : List (E × Nat)) :
    (rememberAll events).length ≤ 20 ∧
    (21 ≤ events.length →
      rememberAll events = events.drop (events.length - 20) ∧
      (rememberAll events).length = 20) := by
  constructor
  · rw [rememberAll_eq_drop, List.length_drop]; omega
  · intro h
    refine ⟨rememberAll_eq_drop events, ?_⟩
    rw [rememberAll_eq_drop, List.length_drop]; omega

/-- Witness for C5 at a concrete sequence of 21 events. -/
theorem short_term_memory_fifo_cap_witness :
    rememberAll (List.replicate 21 ((0 : Nat), (0 : Nat))) =
      (List.replicate 21 ((0 : Nat), (0 : Nat))).drop
        ((List.replicate 21 ((0 : Nat), (0 : Nat))).length - 20) ∧
    (rememberAll (List.replicate 21 ((0 : Nat), (0 : Nat)))).length = 20 :=
  (short_term_memory_fifo_cap (List.replicate 21 ((0 : Nat), (0 : Nat)))).2 (by simp)

/-- Helper: one relationship update saturates familiarity at 10 in a step
of 0.5, whatever else the interaction carries. -/
theorem familiarity_update_formula (rel : Option Relationship) (i : Interaction) :
    (updateRelationship rel i).familiarity = min 10 (famOf rel + 1/2) := by
  cases rel <;> simp [updateRelationship, famOf] <;> split <;> rfl

/-- Helper: familiarity after a sequence of interactions in closed form. -/
theorem famOf_relAfter (inters : List Interaction) :
    famOf (relAfter inters) = min 10 ((inters.length : ℚ) / 2) := by
  induction inters using List.reverseRecOn with
  | nil =>
    simp [relAfter, famOf]
  | append_singleton is i ih =>
    have hstep : relAfter (is ++ [i]) = some (updateRelationship (relAfter is) i) := by
      simp [relAfter]
    rw [hstep, show famOf (some (updateRelationship (relAfter is) i)) =
      (updateRelationship (relAfter is) i).familiarity from rfl,
      familiarity_update_formula, ih]
    simp only [List.length_append, List.length_singleton]
    rcases le_total ((is.length : ℚ) / 2) 10 with h | h
    · rw [min_eq_right h]
      congr 1
      push_cast
      ring
    · rw [min_eq_left h, min_eq_left (by norm_num : (10:ℚ) ≤ 10 + 1/2),
        min_eq_left (by push_cast; linarith : (10:ℚ) ≤ ((is.length + 1 : ℕ) : ℚ) / 2)]

/-- Claim C6: each interaction sets familiarity to min(10, familiarity + 0.5);
familiarity is non-decreasing over every interaction sequence, equals exactly
10 after 20 interactions from a fresh record, and remains 10 thereafter. -/
theorem familiarity_monotone_saturating (inters : List Interaction) (i : Interaction) :
    (updateRelationship (relAfter inters) i).familiarity
      = min 10 (famOf (relAfter inters) + 1/2) ∧
    famOf (relAfter inters) ≤ famOf (relAfter (inters ++ [i])) ∧
    (inters.length = 20 → famOf (relAfter inters) = 10) ∧
    (20 ≤ inters.length → famOf (relAfter inters) = 10) := by
  refine ⟨familiarity_update_formula _ _, ?_, ?_, ?_⟩
  · rw [famOf_relAfter, famOf_relAfter]
    simp only [List.length_append, List.length_singleton]
    refine min_le_min (le_refl _) ?_
    push_cast
    linarith
  · intro h
    rw [famOf_relAfter, h]
    norm_num
  · intro h
    rw [famOf_relAfter,
      min_eq_left (by
        have h20 : (20 : ℚ) ≤ (inters.length : ℚ) := by exact_mod_cast h
        linarith : (10:ℚ) ≤ (inters.length : ℚ) / 2)]

/-- Witness for C6 at concrete sequences of 20 and 21 interactions. -/
theorem familiarity_monotone_saturating_witness :
    famOf (relAfter (List.replicate 20 ⟨"m", 0⟩)) = 10 ∧
    famOf (relAfter (List.replicate 21 ⟨"m", 0⟩)) = 10 :=
  ⟨(familiarity_monotone_saturating (List.replicate 20 ⟨"m", 0⟩) ⟨"m", 0⟩).2.2.1 (by simp),
   (familiarity_monotone_saturating (List.replicate 21 ⟨"m", 0⟩) ⟨"m", 0⟩).2.2.2 (by simp)⟩

/-- Claim C4: the parsed confidence is always in [1,10]; it is exactly 5 when
no integer follows a `Confidence:` marker, the clamp of the found integer
otherwise; the parser is total (never raises), and its exception fallback
carries wants_to_end = false and confidence = 5. -/
theorem parsed_confidence_in_range (text agentName : String) :
    (1 ≤ (parseIntelligentResponse text agentName).confidence ∧
      (parseIntelligentResponse text agentName).confidence ≤ 10) ∧
    (searchConfidence text.data = none →
      (parseIntelligentResponse text agentName).confidence = 5) ∧
    (∀ n, searchConfidence text.data = some n →
      (parseIntelligentResponse text agentName).confidence = max 1 (min 10 n)) ∧
    (parseFallbackResponse text agentName).wants_to_end = false ∧
    (parseFallbackResponse text agentName).confidence = 5 := by
  refine ⟨?_, ?_, ?_, rfl, rfl⟩
  · cases hsc : searchConfidence text.data with
    | none =>
      have h : (parseIntelligentResponse text agentName).confidence = 5 := by
        simp [parseIntelligentResponse, hsc]
      rw [h]; omega
    | some n =>
      have h : (parseIntelligentResponse text agentName).confidence = max 1 (min 10 n) := by
        simp [parseIntelligentResponse, hsc]
      rw [h]; omega
  · intro hsc
    simp [parseIntelligentResponse, hsc]
  · intro n hsc
    simp [parseIntelligentResponse, hsc]

/-- Witness for C4 at a reply carrying an out-of-range confidence value. -/
theorem parsed_confidence_in_range_witness :
    searchConfidence ("Confidence: 99").data = some 99 ∧
    (parseIntelligentResponse "Confidence: 99" "A").confidence = max 1 (min 10 99) :=
  ⟨by decide, (parsed_confidence_in_range "Confidence: 99" "A").2.2.1 99 (by decide)⟩

/-- Helper: the loop never runs more iterations than remain available. -/
theorem conversationLoop_turn_count_le (inputs : Nat → TurnInput) (r : Nat) :
    ∀ (tc : Nat) (sp : Bool), (conversationLoop inputs tc sp r).turn_count ≤ tc + r := by
  induction r with
  | zero => intro tc sp; simp [conversationLoop]
  | succ r ih =>
    intro tc sp
    simp only [conversationLoop]
    split_ifs with h1 h2 h3 h4
    · show tc + 1 ≤ tc + (r + 1); omega
    · show tc + 1 ≤ tc + (r + 1); omega
    · show (conversationLoop inputs (tc + 1) (!sp) r).turn_count ≤ tc + (r + 1)
      exact le_trans (ih (tc + 1) (!sp)) (by omega)
    · show (conversationLoop inputs (tc + 1) (!sp) r).turn_count ≤ tc + (r + 1)
      exact le_trans (ih (tc + 1) (!sp)) (by omega)
    · show (conversationLoop inputs (tc + 1) (!sp) r).turn_count ≤ tc + (r + 1)
      exact le_trans (ih (tc + 1) (!sp)) (by omega)

/-- Helper: when no reply ever wants to end, every iteration takes the
continue branch, so the loop exhausts its budget with the initial reason. -/
theorem conversationLoop_no_end (inputs : Nat → TurnInput)
    (h : ∀ t, (inputs t).decision.wants_to_end = false) (r : Nat) :
    ∀ (tc : Nat) (sp : Bool),
      (conversationLoop inputs tc sp r).turn_count = tc + r ∧
      (conversationLoop inputs tc sp r).ending_reason = "max_turns_reached" := by
  induction r with
  | zero => intro tc sp; exact ⟨rfl, rfl⟩
  | succ r ih =>
    intro tc sp
    have hstep : conversationLoop inputs tc sp (r + 1) =
        ⟨(conversationLoop inputs (tc + 1) (!sp) r).turn_count,
          (conversationLoop inputs (tc + 1) (!sp) r).ending_reason,
          ⟨tc + 1, sp, (inputs (tc + 1)).decision, none⟩ ::
            (conversationLoop inputs (tc + 1) (!sp) r).log⟩ := by
      simp only [conversationLoop]
      rw [if_neg (by simp [h (tc + 1)])]
    rw [hstep]
    exact ⟨by rw [show (⟨(conversationLoop inputs (tc + 1) (!sp) r).turn_count, _, _⟩ :
        RunResult).turn_count = (conversationLoop inputs (tc + 1) (!sp) r).turn_count from rfl,
        (ih (tc + 1) (!sp)).1]; omega,
      (ih (tc + 1) (!sp)).2⟩

/-- Claim C1: every run is bounded by max_turns (default 20), and a run in
which no reply parses to an end-intent executes exactly max_turns turns and
reports the ending reason "max_turns_reached". -/
theorem max_turns_termination (inputs : Nat → TurnInput) (maxTurns : Nat) :
    (runConversation inputs maxTurns).turn_count ≤ maxTurns ∧
    defaultMaxTurns = 20 ∧
    ((∀ t, (inputs t).decision.wants_to_end = false) →
      (runConversation inputs maxTurns).turn_count = maxTurns ∧
      (runConversation inputs maxTurns).ending_reason = "max_turns_reached") := by
  refine ⟨?_, rfl, ?_⟩
  · simpa [runConversation] using conversationLoop_turn_count_le inputs maxTurns 0 true
  · intro h
    simpa [runConversation] using conversationLoop_no_end inputs h maxTurns 0 true

/-- Witness for C1: a run of replies that never want to end, at the default
turn budget. -/
theorem max_turns_termination_witness :
    (runConversation (fun _ => ⟨⟨false, "", 5⟩, ⟨false, ""⟩⟩) defaultMaxTurns).turn_count
        = defaultMaxTurns ∧
    (runConversation (fun _ => ⟨⟨false, "", 5⟩, ⟨false, ""⟩⟩) defaultMaxTurns).ending_reason
        = "max_turns_reached" :=
  (max_turns_termination (fun _ => ⟨⟨false, "", 5⟩, ⟨false, ""⟩⟩) defaultMaxTurns).2.2
    (fun _ => rfl)

/-- Claim C2: a turn whose reply parses to wants_to_end = true with
confidence ≥ 7 ends the conversation on that same turn, with ending reason
"character_decision: " followed by the parsed reasoning. -/
theorem high_confidence_character_decision (inputs : Nat → TurnInput)
    (tc : Nat) (sp : Bool) (r : Nat)
    (hw : (inputs (tc + 1)).decision.wants_to_end = true)
    (hc : 7 ≤ (inputs (tc + 1)).decision.confidence) :
    conversationLoop inputs tc sp (r + 1) =
      ⟨tc + 1, "character_decision: " ++ (inputs (tc + 1)).decision.reasoning,
        [⟨tc + 1, sp, (inputs (tc + 1)).decision, none⟩]⟩ := by
  simp only [conversationLoop]
  rw [if_pos hw, if_pos hc]

/-- Witness for C2 at a concrete confident reply. -/
theorem high_confidence_character_decision_witness :
    conversationLoop (fun _ => ⟨⟨true, "satisfied", 8⟩, ⟨false, ""⟩⟩) 0 true 1 =
      ⟨1, "character_decision: satisfied", [⟨1, true, ⟨true, "satisfied", 8⟩, none⟩]⟩ :=
  high_confidence_character_decision (fun _ => ⟨⟨true, "satisfied", 8⟩, ⟨false, ""⟩⟩)
    0 true 0 rfl (by decide)

/-- Claim C3 fails as stated: a turn whose parsed EndingDecision has
confidence 5 (so 4 ≤ confidence < 7) but wants_to_end = false triggers no
consensus check — the turn record carries none and the run simply continues —
even though the consensus environment would have agreed to end. -/
theorem medium_confidence_counterexample :
    4 ≤ (EndingDecision.mk false "no reason" 5).confidence ∧
    (EndingDecision.mk false "no reason" 5).confidence < 7 ∧
    conversationLoop
        (fun _ => ⟨EndingDecision.mk false "no reason" 5, ⟨true, "happy to end"⟩⟩) 0 true 1 =
      ⟨1, "max_turns_reached",
        [⟨1, true, EndingDecision.mk false "no reason" 5, none⟩]⟩ :=
  ⟨by decide, by decide, rfl⟩

/-- Claim C3 (amended): on a turn whose parsed EndingDecision has
wants_to_end = true and 4 ≤ confidence < 7, the orchestrator asks the
original speaker for consensus; if the consensus reply agrees, the
conversation ends on that turn with reason "mutual_agreement: " plus that
agent's reasoning, otherwise it continues to the next turn with speaker and
listener roles swapped.  A consensus reply whose parse finds no
`Agree to end:` marker defaults to disagreement. -/
theorem medium_confidence_consensus (inputs : Nat → TurnInput)
    (tc : Nat) (sp : Bool) (r : Nat)
    (hw : (inputs (tc + 1)).decision.wants_to_end = true)
    (h4 : 4 ≤ (inputs (tc + 1)).decision.confidence)
    (h7 : (inputs (tc + 1)).decision.confidence < 7) :
    ((inputs (tc + 1)).consensus.agrees_to_end = true →
      conversationLoop inputs tc sp (r + 1) =
        ⟨tc + 1, "mutual_agreement: " ++ (inputs (tc + 1)).consensus.reasoning,
          [⟨tc + 1, sp, (inputs (tc + 1)).decision, some ((inputs (tc + 1)).consensus)⟩]⟩) ∧
    ((inputs (tc + 1)).consensus.agrees_to_end = false →
      conversationLoop inputs tc sp (r + 1) =
        ⟨(conversationLoop inputs (tc + 1) (!sp) r).turn_count,
          (conversationLoop inputs (tc + 1) (!sp) r).ending_reason,
          ⟨tc + 1, sp, (inputs (tc + 1)).decision, some ((inputs (tc + 1)).consensus)⟩ ::
            (conversationLoop inputs (tc + 1) (!sp) r).log⟩) ∧
    (∀ s : String, searchAgreeToEnd s.data = none → (parseConsensus s).agrees_to_end = false) := by
  refine ⟨?_, ?_, ?_⟩
  · intro ha
    simp only [conversationLoop]
    rw [if_pos hw, if_neg (by omega), if_pos h4, if_pos ha]
  · intro ha
    simp only [conversationLoop]
    rw [if_pos hw, if_neg (by omega), if_pos h4, if_neg (by simp [ha])]
  · intro s hs
    simp [parseConsensus, hs]

/-- Witness for C3 (amended): a medium-confidence end-intent whose consensus
check disagrees, so the run continues with roles swapped. -/
theorem medium_confidence_consensus_witness :
    conversationLoop (fun _ => ⟨⟨true, "maybe done", 5⟩, ⟨false, "keep going"⟩⟩) 0 true 1 =
      ⟨1, "max_turns_reached",
        [⟨1, true, ⟨true, "maybe done", 5⟩, some ⟨false, "keep going"⟩⟩]⟩ :=
  (medium_confidence_consensus (fun _ => ⟨⟨true, "maybe done", 5⟩, ⟨false, "keep going"⟩⟩)
    0 true 0 rfl (by decide) (by decide)).2.1 rfl

/-- Claim C7 fails as stated: after an interaction whose message carries a
gratitude term the stored sentiment is positive, but a following interaction
whose message contains neither keyword set resets the sentiment to neutral
instead of leaving it unchanged. -/
theorem sentiment_reset_counterexample :
    (updateEnhancedRelationship none "thank you" Mood.neutral).sentiment
        = Sentiment.positive ∧
    (updateEnhancedRelationship
        (some (updateEnhancedRelationship none "thank you" Mood.neutral))
        "hello there" Mood.neutral).sentiment = Sentiment.neutral ∧
    Sentiment.neutral ≠ Sentiment.positive := by
  refine ⟨?_, ?_, ?_⟩ <;> decide

/-- Claim C7 (amended): after every recorded interaction the stored sentiment
is recomputed from the current message alone, by keyword precedence: a
gratitude term makes it positive; else a distress term makes it concerned;
else it is set (back) to neutral rather than left unchanged. -/
theorem sentiment_recomputed_each_interaction (rel : Option EnhancedRelationship)
    (message : String) (mood : Mood) :
    (containsAnyWord sentimentGratitudeWords (lowerChars message) = true →
      (updateEnhancedRelationship rel message mood).sentiment = Sentiment.positive) ∧
    (containsAnyWord sentimentGratitudeWords (lowerChars message) = false →
      containsAnyWord sentimentDistressWords (lowerChars message) = true →
      (updateEnhancedRelationship rel message mood).sentiment = Sentiment.concerned) ∧
    (containsAnyWord sentimentGratitudeWords (lowerChars message) = false →
      containsAnyWord sentimentDistressWords (lowerChars message) = false →
      (updateEnhancedRelationship rel message mood).sentiment = Sentiment.neutral) := by
  have hsent : (updateEnhancedRelationship rel message mood).sentiment
      = computeSentiment message := by
    cases rel <;> rfl
  refine ⟨fun h1 => ?_, fun h1 h2 => ?_, fun h1 h2 => ?_⟩
  · rw [hsent]; simp [computeSentiment, h1]
  · rw [hsent]; simp [computeSentiment, h1, h2]
  · rw [hsent]; simp [computeSentiment, h1, h2]

/-- Witness for C7 (amended) at a gratitude-bearing message. -/
theorem sentiment_recomputed_each_interaction_witness :
    (updateEnhancedRelationship none "thank you" Mood.pleased).sentiment
        = Sentiment.positive :=
  (sentiment_recomputed_each_interaction none "thank you" Mood.pleased).1 (by decide)

/-- Claim C8: the emotional-state update is exactly the keyword mood rule
followed by the length-based decay, in that order; the decay can override the
keyword-driven energy adjustment (at energy 80, "wonderful" raises energy to
90, but a turn counter of 9 then forces it to 55). -/
theorem emotional_update_is_keyword_then_decay :
    (∀ (st : EmotionalState) (message : String) (turn : Option Int),
      updateEmotionalState st message turn
        = lengthDecayRule (keywordMoodRule st message) turn) ∧
    (keywordMoodRule ⟨Mood.neutral, 80⟩ "wonderful").energy = 90 ∧
    (updateEmotionalState ⟨Mood.neutral, 80⟩ "wonderful" (some 9)).energy = 55 := by
  refine ⟨fun st message turn => ?_, by decide, by decide⟩
  cases turn <;> rfl

/-- Claim C9: exporting an agent's state and loading it into a fresh agent
reproduces the short-term memory, the long-term notes and the relationships
exactly (same entries, order and values); the chat transcript is reset to
empty rather than restored. -/
theorem get_load_state_round_trip {E R L C P : Type}
    (a fresh : BaseAgentState E R L C P) :
    (loadState fresh (getState a)).memory.short_term = a.memory.short_term ∧
    (loadState fresh (getState a)).memory.long_term = a.memory.long_term ∧
    (loadState fresh (getState a)).memory.relationships = a.memory.relationships ∧
    (loadState fresh (getState a)).chat_history = [] :=
  ⟨rfl, rfl, rfl, rfl⟩

/-- Helper: scanning for the `Confidence:` marker ignores a prepended text
that contains no capital C. -/
theorem searchConfidence_append (p : List Char) (hp : ∀ c ∈ p, c ≠ 'C') (l : List Char) :
    searchConfidence (p ++ l) = searchConfidence l := by
  induction p with
  | nil => rfl
  | cons c cs ih =>
    have hc : c ≠ 'C' := hp c (List.mem_cons_self c cs)
    simp only [List.cons_append, searchConfidence]
    rw [if_neg (by simp [List.isPrefixOf, beq_eq_false_iff_ne.mpr (Ne.symm hc)])]
    exact ih (fun x hx => hp x (List.mem_cons_of_mem c hx))

/-- Helper: scanning for the case-insensitive `Want to end:` marker ignores a
prepended text that contains no letter lowercasing to w. -/
theorem searchWantToEnd_append (p : List Char) (hp : ∀ c ∈ p, c.toLower ≠ 'w') (l : List Char) :
    searchWantToEnd (p ++ l) = searchWantToEnd l := by
  induction p with
  | nil => rfl
  | cons c cs ih =>
    have hc : c.toLower ≠ 'w' := hp c (List.mem_cons_self c cs)
    simp only [List.cons_append, searchWantToEnd]
    rw [if_neg (by
      simp [ciStartsWith, show ('w' : Char).toLower = 'w' from rfl,
        beq_eq_false_iff_ne.mpr (Ne.symm hc)])]
    exact ih (fun x hx => hp x (List.mem_cons_of_mem c hx))

/-- Claim C10 fails as stated: the fallback utterance embeds the error text,
so a generation failure whose exception message itself contains the
structured markers parses to a real ending decision — here wants_to_end =
true with confidence 9 instead of the claimed false / 5. -/
theorem think_fallback_counterexample :
    (parseIntelligentResponse
        (thinkResult (Except.error "Want to end: YES Confidence: 9")) "A").wants_to_end
        = true ∧
    (parseIntelligentResponse
        (thinkResult (Except.error "Want to end: YES Confidence: 9")) "A").confidence = 9 := by
  constructor <;> decide

/-- Claim C10 (amended): a generation failure never propagates; `think`
returns the apologetic fallback utterance (a fixed prefix followed by the
error text), and whenever the error text contains no `Want to end: YES/NO`
marker and no `Confidence:`-digits marker, parsing the fallback yields
wants_to_end = false and confidence = 5, so the conversation continues on
that turn. -/
theorem think_fallback_parses_to_continue (e : String) (agentName : String)
    (hw : searchWantToEnd e.data = none)
    (hc : searchConfidence e.data = none) :
    thinkResult (Except.error e) = thinkFallback e ∧
    (parseIntelligentResponse (thinkFallback e) agentName).wants_to_end = false ∧
    (parseIntelligentResponse (thinkFallback e) agentName).confidence = 5 := by
  have hdata : (thinkFallback e).data
      = "I apologize, but I\x27m having difficulty processing that request: ".data ++ e.data :=
    String.data_append _ _
  have hw2 : searchWantToEnd (thinkFallback e).data = none := by
    rw [hdata, searchWantToEnd_append _ (by decide) e.data, hw]
  have hc2 : searchConfidence (thinkFallback e).data = none := by
    rw [hdata, searchConfidence_append _ (by decide) e.data, hc]
  exact ⟨rfl, by simp [parseIntelligentResponse, hw2], by simp [parseIntelligentResponse, hc2]⟩

/-- Witness for C10 (amended) at a typical error text with no markers. -/
theorem think_fallback_parses_to_continue_witness :
    thinkResult (Except.error "connection timeout") = thinkFallback "connection timeout" ∧
    (parseIntelligentResponse (thinkFallback "connection timeout") "A").wants_to_end = false ∧
    (parseIntelligentResponse (thinkFallback "connection timeout") "A").confidence = 5 :=
  think_fallback_parses_to_continue "connection timeout" "A" (by decide) (by decide)
